import Mathlib

/-!
Shallow embedding of the brand-trust scoring engine of `langraph_1.py`
(repository flashco-tech/Brand-score), together with theorems settling the
frozen specification claims about it.

Modelling conventions:
* Python dicts with string keys are association lists `List (String × Json)`
  in insertion order; `dict.get(k, d)` is `(List.lookup k m).getD d`.
* Python floats are idealised as exact rationals `ℚ`.  Python's `round(x, n)`
  (correct rounding of the value with ties to even) is `pyRound x n` below.
* Fallible Python code (expressions that can raise) is modelled in
  `Except Unit`; a `.error ()` result corresponds to an exception reaching
  the nearest `try`/`except` in the source.
* The external Gemini reasoning service is an injected oracle
  `Option (String → String)`: `none` models "no credential configured /
  model unavailable", `some f` models a model whose response text to a
  prompt `p` is `f p`.
-/

/-- JSON values, the universe of Python data handled by the scorer
(`json.loads` results, component-score dicts, state payloads). -/
inductive Json where
  | null : Json
  | bool (b : Bool) : Json
  | num (q : ℚ) : Json
  | str (s : String) : Json
  | arr (xs : List Json) : Json
  | obj (kvs : List (String × Json)) : Json

/-- Python dicts with string keys, in insertion order. -/
abbrev Dict := List (String × Json)

/-- `d[k]` / `k in d` lookup: first binding of `k`. -/
def dictLookup (d : Dict) (k : String) : Option Json := List.lookup k d

/-- Python `k in d`. -/
def hasKey (d : Dict) (k : String) : Bool := (dictLookup d k).isSome

/-- Python truthiness of a JSON-like value (`if x:`). -/
def truthy : Json → Bool
  | .null => false
  | .bool b => b
  | .num q => q ≠ 0
  | .str s => s ≠ ""
  | .arr xs => !xs.isEmpty
  | .obj kvs => !kvs.isEmpty

/-! ### Character and string utilities (Python `str.strip`, digits) -/

/-- Python whitespace (`str.strip` default / regex `\s`). -/
def pyWs (c : Char) : Bool :=
  c = ' ' || c = '\t' || c = '\n' || c = '\x0d' || c = '\x0c' || c = '\x0b'

/-- `str.strip()` on a character list. -/
def pyStrip (s : List Char) : List Char :=
  ((s.dropWhile pyWs).reverse.dropWhile pyWs).reverse

def isDigitCh (c : Char) : Bool := '0'.toNat ≤ c.toNat && c.toNat ≤ '9'.toNat

def digitVal (c : Char) : ℕ := c.toNat - '0'.toNat

def digitsToNat (ds : List Char) : ℕ := ds.foldl (fun a c => 10 * a + digitVal c) 0

/-! ### Python `float(x)`

`float` applied to the values that can sit in a score field: numbers are
returned as-is, booleans become 0/1, numeric strings are parsed
(optional sign, integer part, optional fraction, optional exponent);
anything else raises (`none`). -/

def parseFloatDigits (ip fp : List Char) (ex : ℤ) : ℚ :=
  ((digitsToNat ip : ℚ) + (digitsToNat fp : ℚ) / 10 ^ fp.length) * 10 ^ (ex : ℤ)

def parsePyFloatCore (s : List Char) : Option ℚ :=
  let s := pyStrip s
  let (sgn, s) := match s with
    | '-' :: t => ((-1 : ℚ), t)
    | '+' :: t => ((1 : ℚ), t)
    | t => ((1 : ℚ), t)
  let ip := s.takeWhile isDigitCh
  let s1 := s.dropWhile isDigitCh
  let (fp, s2) := match s1 with
    | '.' :: t => (t.takeWhile isDigitCh, t.dropWhile isDigitCh)
    | t => ([], t)
  if ip = [] ∧ fp = [] then none else
  match s2 with
  | [] => some (sgn * parseFloatDigits ip fp 0)
  | e :: t =>
    if e = 'e' ∨ e = 'E' then
      let (esgn, t) := match t with
        | '-' :: u => ((-1 : ℤ), u)
        | '+' :: u => ((1 : ℤ), u)
        | u => ((1 : ℤ), u)
      let ed := t.takeWhile isDigitCh
      if ed = [] ∨ t.dropWhile isDigitCh ≠ [] then none
      else some (sgn * parseFloatDigits ip fp (esgn * digitsToNat ed))
    else none

/-- Python `float(v)` for a JSON value; `none` models a raised exception. -/
def pyFloat : Json → Option ℚ
  | .num q => some q
  | .bool b => some (if b then 1 else 0)
  | .str s => parsePyFloatCore s.data
  | _ => none

/-! ### Python `round(x, n)`: correct rounding with ties to even -/

/-- Round a rational to the nearest integer, ties to the even integer.
This is the value semantics of Python 3's `round` (banker's rounding),
in the exact-rational idealisation of floats. -/
def roundHalfEven (x : ℚ) : ℤ :=
  if x - Rat.floor x < 1 / 2 then Rat.floor x
  else if 1 / 2 < x - Rat.floor x then Rat.floor x + 1
  else if Rat.floor x % 2 = 0 then Rat.floor x else Rat.floor x + 1

/-- Python `round(x, nd)` for `nd ≥ 1` decimal digits. -/
def pyRound (x : ℚ) (nd : ℕ) : ℚ := (roundHalfEven (x * 10 ^ nd) : ℚ) / 10 ^ nd

/-! ### The two configured weight tables

`weights` is the table of the effective `BrandTrustScorer.calculate_trust_score`
(the second class definition, line 2236); `weightsShadowed` is the table of the
first, shadowed class definition (line 1442). -/

def weights : List (String × ℚ) :=
  [("ratings", 55 / 100),
   ("business_legitimacy", 10 / 100),
   ("review_sentiment", 20 / 100),
   ("social_media", 10 / 100),
   ("customer_support", 5 / 100)]

def weightsShadowed : List (String × ℚ) :=
  [("ratings", 50 / 100),
   ("business_legitimacy", 15 / 100),
   ("review_sentiment", 15 / 100),
   ("social_media", 10 / 100),
   ("customer_support", 10 / 100)]

/-! ### `BrandTrustScorer._calculate_final_score` -/

/-- The `component_scores` dict: per-dimension results.  A value `none`
models a Python `None` stored under the key (which the loop body then
chokes on); an absent key models a missing dimension. -/
abbrev CompMap := List (String × Option Dict)

/-- One iteration of the score-extraction loop of `_calculate_final_score`:
`component_result = component_scores.get(component, {})`, then the
`error` / `f"{component}_score"` / `score` / default-5.0 cascade, with
clamping `max(0.0, min(10.0, float(...)))`.  `.error ()` models the
`TypeError` raised by `'error' in None` or a failing `float(...)`. -/
def getComponentScore (cs : CompMap) (c : String) : Except Unit ℚ :=
  match (List.lookup c cs).getD (some []) with
  | none => .error ()
  | some d =>
    if hasKey d "error" then .ok 5
    else
      match dictLookup d (c ++ "_score") with
      | some v =>
        match pyFloat v with
        | some q => .ok (max 0 (min 10 q))
        | none => .error ()
      | none =>
        match dictLookup d "score" with
        | some v =>
          match pyFloat v with
          | some q => .ok (max 0 (min 10 q))
          | none => .error ()
        | none => .ok 5

/-- The `scores` dict built by the extraction loop, in weight-table order. -/
def extractScores (cs : CompMap) : Except Unit (List (String × ℚ)) :=
  weights.mapM (fun cw => (getComponentScore cs cw.1).map (fun q => (cw.1, q)))

def scoreLookup (scores : List (String × ℚ)) (c : String) : ℚ :=
  (List.lookup c scores).getD 0

/-- The pre-rounding weighted sum
`final_score = sum(scores[c] * weights[c] for c in weights.keys())`. -/
def rawFinalScore (cs : CompMap) : Except Unit ℚ :=
  (extractScores cs).map
    (fun scores => (weights.map (fun cw => scoreLookup scores cw.1 * cw.2)).sum)

/-- `interpret_score` of `_calculate_final_score` (applied to the
*unrounded* weighted sum, as in the source). -/
def interpret_score (score : ℚ) : String :=
  if score ≥ 17 / 2 then "Excellent - Strong buy confidence"
  else if score ≥ 7 then "Good - Generally trustworthy"
  else if score ≥ 11 / 2 then "Average - Proceed with research"
  else if score ≥ 4 then "Below Average - Significant concerns"
  else "Poor - High risk, consider alternatives"

/-- `f"{int(weights[component]*100)}%"` (float-to-int truncation; all
configured weights are positive, so truncation is the floor). -/
def intPctString (w : ℚ) : String := toString (Rat.floor (w * 100)) ++ "%"

structure BreakdownEntry where
  score : ℚ
  weight : String
  contribution : ℚ
  deriving DecidableEq

structure TrustScoreResult where
  final_score : ℚ
  component_breakdown : List (String × BreakdownEntry)
  score_interpretation : String
  component_results : CompMap

/-- `BrandTrustScorer._calculate_final_score(component_scores, weights)`
with the configured weight table: extract per-dimension scores, form the
weighted sum, round to one decimal, build the breakdown and the
interpretation. -/
def calculate_final_score (cs : CompMap) : Except Unit TrustScoreResult :=
  (extractScores cs).map (fun scores =>
    let final := (weights.map (fun cw => scoreLookup scores cw.1 * cw.2)).sum
    { final_score := pyRound final 1
      component_breakdown := weights.map (fun cw =>
        (cw.1,
         { score := scoreLookup scores cw.1
           weight := intPctString cw.2
           contribution := pyRound (scoreLookup scores cw.1 * cw.2) 2 }))
      score_interpretation := interpret_score final
      component_results := cs })

instance {ε α : Type _} [DecidableEq ε] [DecidableEq α] : DecidableEq (Except ε α) :=
  fun x y =>
    match x, y with
    | .ok a, .ok b => decidable_of_iff (a = b) (by simp)
    | .error a, .error b => decidable_of_iff (a = b) (by simp)
    | .ok _, .error _ => .isFalse (fun h => nomatch h)
    | .error _, .ok _ => .isFalse (fun h => nomatch h)

/-! ### A small backtracking regex engine

`_call_component_analyzer` extracts JSON via `re.findall` over four fixed
patterns.  All four are sequences of single characters, greedy stars over a
character class (`\s*`, `[^{}]*`, `[^"]*`, `.*`) and one lazy star (`.*?`),
with one capture group, so a pattern is modelled as three item lists
(before / inside / after the group).  Matching follows Python's backtracking
order: leftmost start, greedy stars longest-first, lazy stars shortest-first,
earlier items backtrack last. -/

inductive RItem where
  | one (p : Char → Bool) : RItem
  | star (p : Char → Bool) : RItem
  | lazy (p : Char → Bool) : RItem

/-- Literal-character items for a string. -/
def lits (s : List Char) : List RItem := s.map (fun x => RItem.one (fun c => c == x))

/-- Suffixes of `s` after consuming 0, 1, 2, … characters of the maximal
`p`-run, in ascending order of consumption. -/
def starDrops (p : Char → Bool) : List Char → List (List Char)
  | [] => [[]]
  | c :: cs => (c :: cs) :: (if p c then starDrops p cs else [])

/-- Match an item sequence against `s`, calling the continuation `k` on the
remainder; choice points are explored in Python's backtracking order. -/
def mseq {α : Type} (fuel : ℕ) (items : List RItem) (s : List Char)
    (k : List Char → Option α) : Option α :=
  match fuel with
  | 0 => none
  | fuel + 1 =>
    match items with
    | [] => k s
    | .one p :: rest =>
      match s with
      | [] => none
      | c :: s' => if p c then mseq fuel rest s' k else none
    | .star p :: rest => ((starDrops p s).reverse).findSome? (fun s' => mseq fuel rest s' k)
    | .lazy p :: rest => (starDrops p s).findSome? (fun s' => mseq fuel rest s' k)

structure RPat where
  pre : List RItem
  grp : List RItem
  post : List RItem

def rFuel : ℕ := 64

/-- Try to match `p` at the start of `s`; on success return the capture-group
text and the remainder after the whole match. -/
def matchAt (p : RPat) (s : List Char) : Option (List Char × List Char) :=
  mseq rFuel p.pre s (fun s1 =>
    mseq rFuel p.grp s1 (fun s2 =>
      mseq rFuel p.post s2 (fun s3 =>
        some (s1.take (s1.length - s2.length), s3))))

def findallFrom (fuel : ℕ) (p : RPat) (s : List Char) : List (List Char) :=
  match fuel with
  | 0 => []
  | fuel + 1 =>
    match matchAt p s with
    | some (cap, rest) =>
      cap :: (if rest.length < s.length then findallFrom fuel p rest else [])
    | none =>
      match s with
      | [] => []
      | _ :: t => findallFrom fuel p t

/-- `re.findall(pattern, s, re.DOTALL)`, returning the capture-group texts. -/
def findall (p : RPat) (s : List Char) : List (List Char) :=
  findallFrom (s.length + 1) p s

def anyCh : Char → Bool := fun _ => true
def notBrace (c : Char) : Bool := !(c == '{' || c == '}')
def notQuote (c : Char) : Bool := c != '"'

/-- Group `(\x7b.*?\x7d)` shared by the two fence patterns. -/
def fenceGrp : List RItem := [.one (fun c => c == '{'), .lazy anyCh, .one (fun c => c == '}')]

/-- Pattern 1 of `json_patterns`: JSON in a labeled code block. -/
def patJsonFence : RPat :=
  { pre := lits "```json".data ++ [.star pyWs]
    grp := fenceGrp
    post := .star pyWs :: lits "```".data }

/-- Pattern 2: JSON in a generic code block. -/
def patFence : RPat :=
  { pre := lits "```".data ++ [.star pyWs]
    grp := fenceGrp
    post := .star pyWs :: lits "```".data }

/-- Pattern 3: the simple single-level JSON pattern
`(\x7b[^{}]*"[^"]*"[^{}]*:[^{}]*\x7d)`. -/
def patSimple : RPat :=
  { pre := []
    grp := [.one (fun c => c == '{'), .star notBrace,
            .one (fun c => c == '"'), .star notQuote, .one (fun c => c == '"'),
            .star notBrace, .one (fun c => c == ':'), .star notBrace,
            .one (fun c => c == '}')]
    post := [] }

/-- Pattern 4: any curly-braces content `(\x7b.*\x7d)`, greedy. -/
def patAny : RPat :=
  { pre := []
    grp := [.one (fun c => c == '{'), .star anyCh, .one (fun c => c == '}')]
    post := [] }

def json_patterns : List RPat := [patJsonFence, patFence, patSimple, patAny]

/-! ### `json.loads` (strict mode) -/

/-- JSON whitespace accepted between tokens by `json.loads`. -/
def jsonWsCh (c : Char) : Bool := c = ' ' || c = '\t' || c = '\n' || c = '\x0d'

def skipWs (s : List Char) : List Char := s.dropWhile jsonWsCh

def hexVal (c : Char) : Option ℕ :=
  if isDigitCh c then some (digitVal c)
  else if 'a'.toNat ≤ c.toNat && c.toNat ≤ 'f'.toNat then some (c.toNat - 'a'.toNat + 10)
  else if 'A'.toNat ≤ c.toNat && c.toNat ≤ 'F'.toNat then some (c.toNat - 'A'.toNat + 10)
  else none

/-- Body of a JSON string after the opening quote: returns the decoded
characters and the remainder after the closing quote.  Unescaped control
characters and bad escapes are rejected, as in strict `json.loads`.
`fuel` only bounds the recursion (the input length plus one suffices). -/
def parseJStrF (fuel : ℕ) (s : List Char) : Option (List Char × List Char) :=
  match fuel with
  | 0 => none
  | fuel + 1 =>
    match s with
    | [] => none
    | c :: r =>
      if c = '"' then some ([], r)
      else if c = '\\' then
        match r with
        | [] => none
        | e :: r2 =>
          let dec : Option (Char × List Char) :=
            if e = '"' ∨ e = '\\' ∨ e = '/' then some (e, r2)
            else if e = 'n' then some ('\n', r2)
            else if e = 't' then some ('\t', r2)
            else if e = 'r' then some ('\x0d', r2)
            else if e = 'b' then some ('\x08', r2)
            else if e = 'f' then some ('\x0c', r2)
            else if e = 'u' then
              match r2 with
              | h1 :: h2 :: h3 :: h4 :: r3 =>
                (match hexVal h1, hexVal h2, hexVal h3, hexVal h4 with
                 | some a, some b, some c', some d =>
                   some (Char.ofNat (((a * 16 + b) * 16 + c') * 16 + d), r3)
                 | _, _, _, _ => none)
              | _ => none
            else none
          match dec with
          | none => none
          | some (ch, r3) =>
            match parseJStrF fuel r3 with
            | none => none
            | some (cs, rest) => some (ch :: cs, rest)
      else if c.toNat < 32 then none
      else
        match parseJStrF fuel r with
        | none => none
        | some (cs, rest) => some (c :: cs, rest)

def parseJStr (s : List Char) : Option (List Char × List Char) :=
  parseJStrF (s.length + 1) s

/-- A JSON number token (strict grammar: no leading zeros, a fraction or
exponent must have digits). -/
def parseJNum (s : List Char) : Option (Json × List Char) :=
  let sr : ℚ × List Char := match s with | '-' :: t => (-1, t) | t => (1, t)
  let sgn := sr.1
  let s1 := sr.2
  let ip := s1.takeWhile isDigitCh
  let r1 := s1.dropWhile isDigitCh
  if ip = [] then none
  else if 1 < ip.length ∧ ip.head? = some '0' then none
  else
    let fracRes : Option (List Char × List Char) :=
      match r1 with
      | '.' :: t =>
        let fp := t.takeWhile isDigitCh
        if fp = [] then none else some (fp, t.dropWhile isDigitCh)
      | t => some ([], t)
    match fracRes with
    | none => none
    | some (fp, r2) =>
      let expRes : Option (ℤ × List Char) :=
        match r2 with
        | e :: t =>
          if e = 'e' ∨ e = 'E' then
            let et : ℤ × List Char :=
              match t with
              | '-' :: u => (-1, u)
              | '+' :: u => (1, u)
              | u => (1, u)
            let ed := et.2.takeWhile isDigitCh
            if ed = [] then none
            else some (et.1 * digitsToNat ed, et.2.dropWhile isDigitCh)
          else some (0, r2)
        | [] => some (0, r2)
      match expRes with
      | none => none
      | some (ex, r3) => some (.num (sgn * parseFloatDigits ip fp ex), r3)

/-- Python-dict insertion: replace the first binding of `k` in place, else
append (later duplicate keys in a JSON object override earlier ones). -/
def dictSet (d : Dict) (k : String) (v : Json) : Dict :=
  match d with
  | [] => [(k, v)]
  | (k', v') :: t => if k' = k then (k, v) :: t else (k', v') :: dictSet t k v

/-- Parser modes: a value, an object expecting a key, an object expecting
`,` or the closing brace, an array expecting a value, an array expecting
`,` or the closing bracket. -/
inductive PMode where
  | val : PMode
  | objKey (acc : Dict) : PMode
  | objNext (acc : Dict) : PMode
  | arrVal (acc : List Json) : PMode
  | arrNext (acc : List Json) : PMode

/-- Recursive-descent core of `json.loads`; `fuel` only bounds recursion
depth (any input of length `n` needs at most `2 * n + 8`). -/
def jsonP (fuel : ℕ) (mode : PMode) (s : List Char) : Option (Json × List Char) :=
  match fuel with
  | 0 => none
  | fuel + 1 =>
    match mode with
    | .val =>
      match s with
      | '{' :: t =>
        (match skipWs t with
         | '}' :: r => some (.obj [], r)
         | t' => jsonP fuel (.objKey []) t')
      | '[' :: t =>
        (match skipWs t with
         | ']' :: r => some (.arr [], r)
         | t' => jsonP fuel (.arrVal []) t')
      | '"' :: t => (parseJStr t).map (fun p => (.str (String.mk p.1), p.2))
      | 't' :: 'r' :: 'u' :: 'e' :: r => some (.bool true, r)
      | 'f' :: 'a' :: 'l' :: 's' :: 'e' :: r => some (.bool false, r)
      | 'n' :: 'u' :: 'l' :: 'l' :: r => some (.null, r)
      | t => parseJNum t
    | .objKey acc =>
      match s with
      | '"' :: t =>
        (match parseJStr t with
         | none => none
         | some (k, r) =>
           match skipWs r with
           | ':' :: r2 =>
             (match jsonP fuel .val (skipWs r2) with
              | none => none
              | some (v, r3) => jsonP fuel (.objNext (dictSet acc (String.mk k) v)) (skipWs r3))
           | _ => none)
      | _ => none
    | .objNext acc =>
      match s with
      | '}' :: r => some (.obj acc, r)
      | ',' :: r => jsonP fuel (.objKey acc) (skipWs r)
      | _ => none
    | .arrVal acc =>
      match jsonP fuel .val s with
      | none => none
      | some (v, r) => jsonP fuel (.arrNext (acc ++ [v])) (skipWs r)
    | .arrNext acc =>
      match s with
      | ']' :: r => some (.arr acc, r)
      | ',' :: r => jsonP fuel (.arrVal acc) (skipWs r)
      | _ => none

/-- `json.loads`: one JSON value surrounded only by whitespace. -/
def json_loads (s : List Char) : Option Json :=
  match jsonP (2 * s.length + 8) .val (skipWs s) with
  | some (j, rest) => if skipWs rest = [] then some j else none
  | none => none

/-! ### The truncation repair pass and the extraction cascade -/

/-- The repair attempted on a candidate that fails strict parsing: append
the surplus of `'\x7b'` over `'\x7d'` as closing braces, then the surplus of
`'['` over `']'` as closing brackets (both at the very end, as the source
does). -/
def fix_json (m : List Char) : List Char :=
  let m1 := m ++ List.replicate (m.count '{' - m.count '}') '}'
  m1 ++ List.replicate (m1.count '[' - m1.count ']') ']'

/-- Inner loop over one pattern's matches: first candidate that parses
(strictly, or after the repair pass) wins; otherwise `parsed_result` keeps
its previous value. -/
def tryCands (parsed : Option Json) : List (List Char) → Option Json
  | [] => parsed
  | m :: rest =>
    match json_loads m with
    | some j => some j
    | none =>
      match json_loads (fix_json m) with
      | some j => some j
      | none => tryCands parsed rest

def truthyO : Option Json → Bool
  | some j => truthy j
  | none => false

/-- Outer loop over the four patterns, with the source's Python-truthiness
break: a successfully parsed but *falsy* result (the empty object) does not
stop the cascade. -/
def extractLoop (pats : List RPat) (parsed : Option Json) (text : List Char) : Option Json :=
  match pats with
  | [] => parsed
  | p :: ps =>
    let parsed' := tryCands parsed (findall p text)
    if truthyO parsed' then parsed' else extractLoop ps parsed' text

/-- `parsed_result` as used by the final `if parsed_result:` of
`_call_component_analyzer`: `none` means the fallback scorer is used. -/
def extract_parsed_result (text : List Char) : Option Json :=
  match extractLoop json_patterns none text with
  | some j => if truthy j then some j else none
  | none => none

/-! ### `_call_component_analyzer` and `_fallback_scoring` -/

/-- `BrandTrustScorer._fallback_scoring` (ignores its `data` argument). -/
def fallback_scoring : Dict :=
  [("score", .num 6),
   ("confidence_level", .str "Low"),
   ("key_factors", .arr [.str "Fallback scoring due to API unavailability"]),
   ("method", .str "fallback")]

/-- The reasoning-service oracle: `none` = model unavailable (no API key /
init failure); `some f` = a model answering prompt `p` with text `f p`. -/
abbrev Svc := Option (String → String)

/-- `BrandTrustScorer._call_component_analyzer`: fallback when the model is
absent or the response text is empty, otherwise the extraction cascade on
the stripped response, with fallback when nothing truthy parses. -/
def call_component_analyzer (svc : Svc) (prompt : String) (_data : Dict) : Dict :=
  match svc with
  | none => fallback_scoring
  | some f =>
    let resp := f prompt
    if resp = "" then fallback_scoring
    else
      match extract_parsed_result (pyStrip resp.data) with
      | some (.obj kvs) => kvs
      | some _ => fallback_scoring
      | none => fallback_scoring

/-! ### `json.dumps` (default separators, ASCII input)

Used to state the extraction round-trip claim: a record is serialised
exactly as `json.dumps` would, wrapped in a labeled fence, and fed back
through the extraction cascade. -/

def hexDigit (n : ℕ) : Char :=
  if n < 10 then Char.ofNat ('0'.toNat + n) else Char.ofNat ('a'.toNat + (n - 10))

def escJChar (c : Char) : List Char :=
  if c = '"' then ['\\', '"']
  else if c = '\\' then ['\\', '\\']
  else if c = '\n' then ['\\', 'n']
  else if c = '\t' then ['\\', 't']
  else if c = '\x0d' then ['\\', 'r']
  else if c = '\x08' then ['\\', 'b']
  else if c = '\x0c' then ['\\', 'f']
  else if c.toNat < 32 then
    ['\\', 'u', '0', '0', hexDigit (c.toNat / 16), hexDigit (c.toNat % 16)]
  else [c]

def dumpJStr (s : String) : List Char :=
  '"' :: (s.data.foldr (fun c acc => escJChar c ++ acc) []) ++ ['"']

/-- Decimal digits of `num / den` (with `num < den`), stopping at remainder
zero or at `fuel` digits. -/
def fracDigitsF (fuel : ℕ) (num den : ℕ) : List Char :=
  match fuel with
  | 0 => []
  | fuel + 1 =>
    if num = 0 then []
    else Char.ofNat ('0'.toNat + num * 10 / den) :: fracDigitsF fuel (num * 10 % den) den

/-- Python `str()` of a float with exact value `q` (for the decimal values
arising in this program). -/
def pyFloatRepr (q : ℚ) : List Char :=
  let sgn : List Char := if q < 0 then ['-'] else []
  let a := |q|
  let frac := fracDigitsF 17 (a.num.toNat % a.den) a.den
  sgn ++ (toString (a.num.toNat / a.den)).data ++ '.' :: (if frac = [] then ['0'] else frac)

/-- Serialisation of one number: integral values print like Python ints,
other values like floats. -/
def ratDump (q : ℚ) : List Char :=
  if q.den = 1 then (toString q.num).data else pyFloatRepr q

def joinCommaSp : List (List Char) → List Char
  | [] => []
  | [x] => x
  | x :: y :: xs => x ++ ',' :: ' ' :: joinCommaSp (y :: xs)

def dumpsF (fuel : ℕ) (j : Json) : List Char :=
  match fuel with
  | 0 => []
  | fuel + 1 =>
    match j with
    | .null => "null".data
    | .bool true => "true".data
    | .bool false => "false".data
    | .num q => ratDump q
    | .str s => dumpJStr s
    | .arr xs => '[' :: joinCommaSp (xs.map (dumpsF fuel)) ++ [']']
    | .obj kvs =>
      '{' :: joinCommaSp (kvs.map (fun kv => dumpJStr kv.1 ++ ':' :: ' ' :: dumpsF fuel kv.2))
        ++ ['}']

/-- `json.dumps(j)` with the default separators. -/
def dumps (j : Json) : String := String.mk (dumpsF 64 j)

/-- A response consisting solely of a fenced block labeled as JSON. -/
def fencedJson (s : String) : String := "```json\n" ++ s ++ "\n```"

/-! ### The five `analyze_*` dimension scorers

The prompt constants below stand for the long literal prompt templates of
the source; their text is abridged because no claim inspects it (each
injected oracle in the theorems is constant in the prompt), while keeping
one distinct prompt per dimension as in the source. -/

def ratingsPrompt : String := "Ratings Data Specialist prompt"
def legitimacyPrompt : String := "Website Business Legitimacy Specialist prompt"
def sentimentPrompt : String := "Review Sentiment Specialist prompt"
def socialPrompt : String := "Social Media Pattern Specialist prompt"
def supportPrompt : String := "Customer Support Quality Analyst prompt"

/-- Python `acc + v` for a JSON value (`int += value`): numbers and bools
add, anything else raises. -/
def jAdd (a : ℚ) : Json → Except Unit ℚ
  | .num q => .ok (a + q)
  | .bool b => .ok (a + (if b then 1 else 0))
  | _ => .error ()

/-- One iteration of the `_prepare_ratings_data` accumulation loop.
A truthy non-dict `overall_rating` makes the `in` test raise (modelled as
`.error ()`; the str/list membership corner is conflated with it). -/
def ratingsFold (acc : ℚ × ℚ) (product : Json) : Except Unit (ℚ × ℚ) :=
  match product with
  | .obj kvs =>
    (match dictLookup kvs "overall_rating" with
     | some overall =>
       if truthy overall then
         match overall with
         | .obj okvs =>
           if hasKey okvs "total_reviews" then do
             let tr ← jAdd acc.1 ((dictLookup okvs "total_reviews").getD (.num 0))
             let ar ←
               if hasKey okvs "average_rating" then
                 jAdd acc.2 ((dictLookup okvs "average_rating").getD (.num 0))
               else pure acc.2
             pure (tr, ar)
           else pure acc
         | _ => .error ()
       else pure acc
     | none => pure acc)
  | _ => pure acc

/-- `BrandTrustScorer._prepare_ratings_data`. -/
def prepare_ratings_data (google_reviews : List Json) : Except Unit Dict :=
  if google_reviews.isEmpty then
    .ok [("total_reviews", .num 0), ("average_rating", .num 0),
         ("message", .str "No Google reviews data available")]
  else
    (google_reviews.foldlM ratingsFold ((0 : ℚ), (0 : ℚ))).map (fun acc =>
      [("total_reviews", .num acc.1),
       ("average_rating", .num (acc.2 / google_reviews.length)),
       ("products_analyzed", .num google_reviews.length)])

/-- `BrandTrustScorer._prepare_support_data`. -/
def prepare_support_data (all_reviews : List Json) : Dict :=
  [("total_reviews_analyzed", .num all_reviews.length),
   ("data_sources", .arr [.str "Google reviews", .str "Reddit reviews"]),
   ("message", .str "Support mentions available for analysis")]

/-- `analyze_ratings` (50%-comment version of the effective class). -/
def analyze_ratings (svc : Svc) (google_reviews : List Json) : Except Unit Dict :=
  (prepare_ratings_data google_reviews).map (call_component_analyzer svc ratingsPrompt)

/-- `analyze_business_legitimacy`. -/
def analyze_business_legitimacy (svc : Svc) (website_trust_data : Dict) : Dict :=
  call_component_analyzer svc legitimacyPrompt website_trust_data

/-- `analyze_social_media` (the effective single-argument definition). -/
def analyze_social_media (svc : Svc) (reddit_reviews : List Json) : Dict :=
  call_component_analyzer svc socialPrompt
    [("reddit_reviews", .arr reddit_reviews), ("reddit_count", .num reddit_reviews.length)]

/-- `analyze_customer_support` (the second, effective definition, which
uses `_prepare_support_data`). -/
def analyze_customer_support (svc : Svc) (google_reviews reddit_reviews : List Json) : Dict :=
  call_component_analyzer svc supportPrompt
    (prepare_support_data (google_reviews ++ reddit_reviews))

/-! ### `analyze_review_sentiment` (the effective definition, line 1915) -/

structure ReviewText where
  text : String
  rating : Json
  source : String

/-- `review.get("content", "")` followed by
`if content and len(content.strip()) > 10`: falsy content is skipped before
`len` is reached; truthy non-string content makes `len`/`strip` raise. -/
def usableText (v : Option Json) : Except Unit (Option String) :=
  match v.getD (.str "") with
  | .str s => .ok (if s ≠ "" ∧ 10 < (pyStrip s.data).length then some s else none)
  | w => if truthy w then .error () else .ok none

/-- Google-review half of the text-extraction loop. -/
def googleTexts (google_reviews : List Json) : Except Unit (List ReviewText) :=
  google_reviews.foldlM (fun acc product =>
    match product with
    | .obj kvs =>
      (match dictLookup kvs "reviews" with
       | some (.arr reviews) =>
         reviews.foldlM (fun acc2 review =>
           match review with
           | .obj rkvs => do
             match ← usableText (dictLookup rkvs "content") with
             | some s =>
               pure (acc2 ++ [{ text := s, rating := (dictLookup rkvs "rating").getD (.num 0),
                                source := "Google" }])
             | none => pure acc2
           | _ => pure acc2) acc
       | some _ => .error ()
       | none => pure acc)
    | _ => pure acc) []

/-- Reddit half of the text-extraction loop (posts, then up to three
comments per post; a non-dict comment makes `comment.get` raise). -/
def redditTexts (reddit_reviews : List Json) : Except Unit (List ReviewText) :=
  reddit_reviews.foldlM (fun acc post =>
    match post with
    | .obj kvs => do
      let acc2 ←
        match ← usableText (dictLookup kvs "post_text") with
        | some s =>
          pure (acc ++ [{ text := s, rating := .str "N/A", source := "Reddit" }])
        | none => pure acc
      let comments ←
        match (dictLookup kvs "comments").getD (.arr []) with
        | .arr cs => pure (cs.take 3)
        | _ => .error ()
      comments.foldlM (fun acc3 comment =>
        match comment with
        | .obj ckvs => do
          match ← usableText (dictLookup ckvs "body") with
          | some s => pure (acc3 ++ [{ text := s, rating := .str "N/A", source := "Reddit" }])
          | none => pure acc3
        | _ => .error ()) acc2
    | _ => pure acc) []

def extract_review_texts (google_reviews reddit_reviews : List Json) :
    Except Unit (List ReviewText) := do
  let g ← googleTexts google_reviews
  let r ← redditTexts reddit_reviews
  pure (g ++ r)

/-- The early-return default when no review text is available
(lines 1961–1972; note the absence of any `method` field). -/
def no_reviews_sentiment : Dict :=
  [("review_sentiment_score", .num 5),
   ("confidence_level", .str "Low"),
   ("key_factors", .arr [.str "No review text available for sentiment analysis"]),
   ("analysis_summary", .obj
     [("total_reviews_analyzed", .num 0),
      ("sentiment_distribution", .str "No reviews available"),
      ("major_themes", .obj [("positive", .arr []), ("negative", .arr [])]),
      ("product_consistency", .str "No data"),
      ("severity_assessment", .str "No reviews to assess")])]

/-- `analyze_review_sentiment`: extract texts (extraction is outside the
`try`, so its exceptions propagate); with no texts return the untagged
default; otherwise call the analyzer and return its result only when it
carries a `review_sentiment_score` — the fallback return in the other
branch is commented out in the source, so the function falls through and
returns Python `None` (modelled as `.ok none`). -/
def analyze_review_sentiment (svc : Svc) (google_reviews reddit_reviews : List Json) :
    Except Unit (Option Dict) := do
  let texts ← extract_review_texts google_reviews reddit_reviews
  if texts.isEmpty then
    pure (some no_reviews_sentiment)
  else
    let result := call_component_analyzer svc sentimentPrompt
      [("total_reviews", .num texts.length), ("reviews_analyzed", .num texts.length)]
    if !result.isEmpty && hasKey result "review_sentiment_score" then
      pure (some result)
    else
      pure none

/-! ### `calculate_trust_score` and the orchestrator nodes -/

structure AnalysisState where
  brand_name : String
  twitter_handle : Option String := none
  website : Option String := none
  google_reviews : List Json := []
  reddit_reviews : List Json := []
  website_trust_data : Dict := []
  trust_score : Option Dict := none
  final_report : Option Dict := none
  collection_status : List (String × String) := []
  errors : List String := []

/-- The `component_scores` dict built by `calculate_trust_score` (the
review-sentiment entry can be Python `None`). -/
def component_results_map (svc : Svc) (st : AnalysisState) : Except Unit CompMap := do
  let ratings ← analyze_ratings svc st.google_reviews
  let legit := analyze_business_legitimacy svc st.website_trust_data
  let sentiment ← analyze_review_sentiment svc st.google_reviews st.reddit_reviews
  let social := analyze_social_media svc st.reddit_reviews
  let support := analyze_customer_support svc st.google_reviews st.reddit_reviews
  pure [("ratings", some ratings),
        ("business_legitimacy", some legit),
        ("review_sentiment", sentiment),
        ("social_media", some social),
        ("customer_support", some support)]

/-- `BrandTrustScorer.calculate_trust_score` of the effective class. -/
def calculate_trust_score (svc : Svc) (st : AnalysisState) : Except Unit TrustScoreResult := do
  let cs ← component_results_map svc st
  calculate_final_score cs

def breakdownJson (bd : List (String × BreakdownEntry)) : Json :=
  .obj (bd.map (fun ce =>
    (ce.1, .obj [("score", .num ce.2.score), ("weight", .str ce.2.weight),
                 ("contribution", .num ce.2.contribution)])))

def compResultsJson (cs : CompMap) : Json :=
  .obj (cs.map (fun cd => (cd.1, match cd.2 with | some d => .obj d | none => .null)))

/-- The trust-score dict returned by `calculate_trust_score`. -/
def trustScoreDict (r : TrustScoreResult) : Dict :=
  [("final_score", .num r.final_score),
   ("component_breakdown", breakdownJson r.component_breakdown),
   ("score_interpretation", .str r.score_interpretation),
   ("component_results", compResultsJson r.component_results)]

/-- The dict stored by `trust_scoring_node` when scoring raises (the
message text of `str(e)` is abridged). -/
def trust_scoring_error_dict : Dict :=
  [("error", .str "exception"), ("final_score", .num 0)]

/-- `BrandAnalyzer.validate_input_node`. -/
def validate_input_node (st : AnalysisState) : AnalysisState :=
  { st with
    collection_status :=
      [("google_reviews", "pending"), ("reddit_reviews", "pending"),
       ("website_analysis", "pending")]
    errors := if st.brand_name = "" then ["Brand name is required"] else []
    google_reviews := []
    reddit_reviews := []
    website_trust_data := [] }

/-- `BrandAnalyzer.parallel_data_collection_node`: skipped entirely when
validation recorded errors; otherwise the injected collector pool runs
(collection itself is external I/O, injected as `collect`). -/
def parallel_data_collection_node (collect : AnalysisState → AnalysisState)
    (st : AnalysisState) : AnalysisState :=
  if st.errors.isEmpty then collect st else st

/-- `BrandAnalyzer.trust_scoring_node`: always runs the scorer (even after
validation errors) and converts an exception into an error trust-score
dict with `final_score = 0.0`. -/
def trust_scoring_node (svc : Svc) (st : AnalysisState) : AnalysisState :=
  match calculate_trust_score svc st with
  | .ok r => { st with trust_score := some (trustScoreDict r) }
  | .error _ =>
    { st with
      trust_score := some trust_scoring_error_dict
      errors := st.errors ++ ["Trust scoring failed"] }

/-! ### `ReportGenerator.generate_comprehensive_report` and the report node -/

def titleCaseGo : Bool → List Char → List Char
  | _, [] => []
  | cap, c :: cs =>
    if c.isAlpha then (if cap then c.toUpper else c.toLower) :: titleCaseGo false cs
    else c :: titleCaseGo true cs

/-- Python `s.replace("_", " ").title()`. -/
def displayName (s : String) : String :=
  String.mk (titleCaseGo true (s.data.map (fun c => if c = '_' then ' ' else c)))

/-- `x.get(k, d)` for a JSON value: dicts look up, anything else (including
Python `None`) raises `AttributeError`. -/
def jGet (j : Json) (k : String) (d : Json) : Except Unit Json :=
  match j with
  | .obj kvs => .ok ((dictLookup kvs k).getD d)
  | _ => .error ()

/-- Interpolation `f"{v}"` of the JSON values appearing in report strings. -/
def jStrVal : Json → List Char
  | .str s => s.data
  | .num q => pyFloatRepr q
  | .bool true => "True".data
  | .bool false => "False".data
  | .null => "None".data
  | j => dumpsF 64 j

/-- The `component_scores` block: title-cased names with score, weight and
contribution pulled from the breakdown entries. -/
def componentScoresJson (bkvs : Dict) : Except Unit Json := do
  let entries ← bkvs.mapM (fun cd => do
    let score ← jGet cd.2 "score" (.num 0)
    let weight ← jGet cd.2 "weight" (.str "0%")
    let contribution ← jGet cd.2 "contribution" (.num 0)
    pure (displayName cd.1,
      Json.obj [("score", score), ("weight", weight), ("contribution", contribution)]))
  pure (.obj entries)

/-- One entry of `detailed_component_analysis` (the weight strings are
hard-coded in the source exactly as passed here). -/
def detailedEntry (component_results : Json) (name scoreKey wstr : String) :
    Except Unit Json := do
  let cr ← jGet component_results name (.obj [])
  let score ← jGet cr scoreKey (.num 0)
  let conf ← jGet cr "confidence_level" (.str "Unknown")
  let kf ← jGet cr "key_factors" (.arr [])
  pure (.obj [("score", score), ("confidence", conf), ("key_factors", kf),
              ("weight", .str wstr)])

/-- The strengths / concerns classification loop (`score >= 7.5` /
`score < 5.5`); comparing a non-numeric score raises. -/
def strengthConcernFold (bkvs : Dict) : Except Unit (List Json × List Json) :=
  bkvs.foldlM (fun acc cd => do
    let scoreJ ← jGet cd.2 "score" (.num 0)
    let weightJ ← jGet cd.2 "weight" (.str "0%")
    let q ←
      match scoreJ with
      | .num q => pure q
      | .bool b => pure ((if b then 1 else 0) : ℚ)
      | _ => .error ()
    let line := Json.str (String.mk ((displayName cd.1).data ++ ": ".data ++ jStrVal scoreJ
      ++ "/10 (".data ++ jStrVal weightJ ++ ")".data))
    if q ≥ 15 / 2 then pure (acc.1 ++ [line], acc.2)
    else if q < 11 / 2 then pure (acc.1, acc.2 ++ [line])
    else pure acc) ([], [])

/-- `ReportGenerator.generate_comprehensive_report`: the summary dict, with
`.error ()` for any of the attribute errors the source can raise while
projecting (caught by `generate_report_node`). -/
def generate_comprehensive_report (st : AnalysisState) : Except Unit Dict := do
  let ts := st.trust_score.getD []
  let final_score := (dictLookup ts "final_score").getD (.num 0)
  let component_breakdown := (dictLookup ts "component_breakdown").getD (.obj [])
  let component_results := (dictLookup ts "component_results").getD (.obj [])
  let bkvs ← match component_breakdown with | .obj kvs => pure kvs | _ => .error ()
  let compScores ← componentScoresJson bkvs
  let d1 ← detailedEntry component_results "ratings" "ratings_score" "55%"
  let d2 ← detailedEntry component_results "business_legitimacy" "business_legitimacy_score" "10%"
  let d3 ← detailedEntry component_results "review_sentiment" "review_sentiment_score" "20%"
  let d4 ← detailedEntry component_results "social_media" "social_media_score" "10%"
  let d5 ← detailedEntry component_results "customer_support" "customer_support_score" "5%"
  let sc ← strengthConcernFold bkvs
  pure
    [("brand_name", .str st.brand_name),
     ("overall_score", final_score),
     ("recommendation", (dictLookup ts "score_interpretation").getD (.str "Unable to determine")),
     ("data_sources_analyzed", .obj
       [("google_reviews", .num st.google_reviews.length),
        ("reddit_reviews", .num st.reddit_reviews.length),
        ("website_analysis", .bool (!st.website_trust_data.isEmpty))]),
     ("component_scores", compScores),
     ("detailed_component_analysis", .obj
       [("ratings", d1), ("business_legitimacy", d2), ("review_sentiment", d3),
        ("social_media", d4), ("customer_support", d5)]),
     ("key_strengths", .arr sc.1),
     ("areas_of_concern", .arr sc.2),
     ("data_collection_status", .obj (st.collection_status.map (fun p => (p.1, Json.str p.2)))),
     ("trust_score_details", .obj ts)]

/-- `BrandAnalyzer.generate_report_node`: build the summary, add the
`trust_score_summary` block when a truthy trust score exists, or fall back
to the minimal degraded report on an exception (the JSON file save is an
external side effect, not modelled). -/
def generate_report_node (st : AnalysisState) : AnalysisState :=
  match generate_comprehensive_report st with
  | .ok rep =>
    let ts := st.trust_score.getD []
    let rep' :=
      if !ts.isEmpty then
        dictSet rep "trust_score_summary" (.obj
          [("final_score", (dictLookup ts "final_score").getD (.num 0)),
           ("component_breakdown", (dictLookup ts "component_breakdown").getD (.obj [])),
           ("component_results", (dictLookup ts "component_results").getD (.obj []))])
      else rep
    { st with final_report := some rep' }
  | .error _ =>
    { st with
      final_report := some
        [("error", .str "exception"),
         ("brand_name", .str st.brand_name),
         ("trust_score_summary", .obj (st.trust_score.getD []))]
      errors := st.errors ++ ["Report generation failed"] }

/-- `BrandAnalyzer.analyze_brand`: the manual workflow
validate → collect → score → report.  The collector pool (thread-pool
fan-out over external scrapers) is injected as the pure state transformer
`collect`; every node of the model is total, so the outer `try`/`except`
of the source never fires here. -/
def analyze_brand (svc : Svc) (collect : AnalysisState → AnalysisState)
    (brand : String) (tw web : Option String) : AnalysisState :=
  generate_report_node (trust_scoring_node svc
    (parallel_data_collection_node collect
      (validate_input_node
        { brand_name := brand, twitter_handle := tw, website := web })))

/-! ### Concrete inputs used by the claim theorems -/

/-- The spec's boundary scenario: dimension-named numeric score fields
9, 8, 7, 6, 5 in weight-table order. -/
def csBoundary : CompMap :=
  [("ratings", some [("ratings_score", .num 9)]),
   ("business_legitimacy", some [("business_legitimacy_score", .num 8)]),
   ("review_sentiment", some [("review_sentiment_score", .num 7)]),
   ("social_media", some [("social_media_score", .num 6)]),
   ("customer_support", some [("customer_support_score", .num 5)])]

/-- Component scores 0, 0, 0, 0, 5: the weighted sum is exactly 0.25,
an exact tie at the first decimal (and one that is exactly representable
in binary floating point, so Python's `round` really sees a tie). -/
def csTie : CompMap :=
  [("ratings", some [("ratings_score", .num 0)]),
   ("business_legitimacy", some [("business_legitimacy_score", .num 0)]),
   ("review_sentiment", some [("review_sentiment_score", .num 0)]),
   ("social_media", some [("social_media_score", .num 0)]),
   ("customer_support", some [("customer_support_score", .num 5)])]

/-- A well-behaved nested record for the extraction round trip. -/
def recordA : Dict := [("a", .num 1), ("b", .obj [("c", .num 2)])]

/-- A valid record whose string value embeds `\x7d` followed by a fence
marker; serialising and fencing it derails the extraction cascade. -/
def recordB : Dict := [("a", .str "\x7d ```"), ("b", .obj [("c", .num 1)])]

/-- One Google product with one usable review text (content longer than 10
characters once stripped). -/
def googleReviewsOne : List Json :=
  [.obj [("reviews", .arr [.obj [("content", .str "excellent quality product"),
                                 ("rating", .num 5)]])]]

/-- A collected-data state with no review texts. -/
def emptyState : AnalysisState := { brand_name := "b" }

/-- The oracle of the empty-response scenario: the model answers every
prompt with the empty string. -/
def svcEmptyResponse : Svc := some (fun _ => "")

/-- The `final_score` value stored in a state's trust-score dict. -/
def stateFinalScore (st : AnalysisState) : Json :=
  (dictLookup (st.trust_score.getD []) "final_score").getD (.num 0)

/-- The complete run of the missing-brand-name scenario: empty brand name,
reasoning service unavailable (the collector pool is skipped by the
validation errors, so the injected collector is irrelevant; `id` is used). -/
def c10Run : AnalysisState := analyze_brand none id "" none none

/-! ### Bounds lemmas for the rounding and the component scores -/

theorem floorBridge (q : ℚ) : ⌊q⌋ = Rat.floor q := by
  rw [Rat.floor_def, Rat.floor_def']

theorem roundHalfEven_le (x : ℚ) (hi : ℤ) (hhi : x ≤ hi) : roundHalfEven x ≤ hi := by
  have hfl : (Rat.floor x : ℤ) = ⌊x⌋ := (floorBridge x).symm
  have hfle : (⌊x⌋ : ℚ) ≤ x := Int.floor_le x
  have hfloorhi : ⌊x⌋ ≤ hi := by
    have : (⌊x⌋ : ℚ) ≤ (hi : ℚ) := le_trans hfle hhi
    exact_mod_cast this
  unfold roundHalfEven
  rw [hfl]
  split
  · exact hfloorhi
  · split
    · rename_i hgt
      have hlt : (⌊x⌋ : ℚ) + 1 / 2 < x := by linarith
      have : (⌊x⌋ : ℚ) < (hi : ℚ) := by linarith
      have hlt2 : ⌊x⌋ < hi := by exact_mod_cast this
      omega
    · rename_i hnlt hngt
      have heq : x - (⌊x⌋ : ℚ) = 1 / 2 := le_antisymm (not_lt.1 hngt) (not_lt.1 hnlt)
      have : (⌊x⌋ : ℚ) < (hi : ℚ) := by linarith
      have hlt2 : ⌊x⌋ < hi := by exact_mod_cast this
      split <;> omega

theorem roundHalfEven_ge (x : ℚ) (lo : ℤ) (hlo : (lo : ℚ) ≤ x) : lo ≤ roundHalfEven x := by
  have hfl : (Rat.floor x : ℤ) = ⌊x⌋ := (floorBridge x).symm
  have hfloorlo : lo ≤ ⌊x⌋ := Int.le_floor.2 hlo
  unfold roundHalfEven
  rw [hfl]
  split
  · exact hfloorlo
  · split
    · omega
    · split <;> omega

theorem pyRound1_bounds (x : ℚ) (h0 : 0 ≤ x) (h10 : x ≤ 10) :
    0 ≤ pyRound x 1 ∧ pyRound x 1 ≤ 10 ∧ ∃ n : ℤ, pyRound x 1 = n / 10 := by
  have hub : roundHalfEven (x * 10 ^ 1) ≤ 100 := by
    apply roundHalfEven_le
    push_cast
    nlinarith
  have hlb : (0 : ℤ) ≤ roundHalfEven (x * 10 ^ 1) := by
    apply roundHalfEven_ge
    push_cast
    nlinarith
  unfold pyRound
  refine ⟨?_, ?_, ⟨roundHalfEven (x * 10 ^ 1), rfl⟩⟩
  · have : (0 : ℚ) ≤ (roundHalfEven (x * 10 ^ 1) : ℚ) := by exact_mod_cast hlb
    positivity
  · have : (roundHalfEven (x * 10 ^ 1) : ℚ) ≤ 100 := by exact_mod_cast hub
    rw [div_le_iff₀ (by norm_num : (0:ℚ) < 10 ^ 1)]
    linarith

/-- Every score the extraction loop produces is clamped to `[0, 10]`. -/
theorem getComponentScore_bounds (cs : CompMap) (c : String) (q : ℚ)
    (h : getComponentScore cs c = .ok q) : 0 ≤ q ∧ q ≤ 10 := by
  unfold getComponentScore at h
  have five : (0 : ℚ) ≤ 5 ∧ (5 : ℚ) ≤ 10 := by norm_num
  have clamp : ∀ x : ℚ, 0 ≤ max 0 (min 10 x) ∧ max 0 (min 10 x) ≤ 10 := by
    intro x
    exact ⟨le_max_left 0 _, max_le (by norm_num) (min_le_left _ _)⟩
  split at h
  · exact absurd h (by simp)
  · split at h
    · cases h
      exact five
    · split at h
      · split at h
        · cases h
          exact clamp _
        · exact absurd h (by simp)
      · split at h
        · split at h
          · cases h
            exact clamp _
          · exact absurd h (by simp)
        · cases h
          exact five

/-- The weighted sum in the shape produced by unfolding the weight table. -/
def finalSum (q1 q2 q3 q4 q5 : ℚ) : ℚ :=
  q1 * (55 / 100) + (q2 * (10 / 100) + (q3 * (20 / 100) + (q4 * (10 / 100) + q5 * (5 / 100))))

/-- Successful aggregation decomposes into the five extracted component
scores, the rounded weighted sum, and the five breakdown entries. -/
theorem calc_ok_destruct (cs : CompMap) (r : TrustScoreResult)
    (hr : calculate_final_score cs = .ok r) :
    ∃ q1 q2 q3 q4 q5,
      getComponentScore cs "ratings" = .ok q1 ∧
      getComponentScore cs "business_legitimacy" = .ok q2 ∧
      getComponentScore cs "review_sentiment" = .ok q3 ∧
      getComponentScore cs "social_media" = .ok q4 ∧
      getComponentScore cs "customer_support" = .ok q5 ∧
      r.final_score = pyRound (finalSum q1 q2 q3 q4 q5) 1 ∧
      r.score_interpretation = interpret_score (finalSum q1 q2 q3 q4 q5) ∧
      r.component_breakdown =
        [("ratings", ⟨q1, intPctString (55/100), pyRound (q1 * (55/100)) 2⟩),
         ("business_legitimacy", ⟨q2, intPctString (10/100), pyRound (q2 * (10/100)) 2⟩),
         ("review_sentiment", ⟨q3, intPctString (20/100), pyRound (q3 * (20/100)) 2⟩),
         ("social_media", ⟨q4, intPctString (10/100), pyRound (q4 * (10/100)) 2⟩),
         ("customer_support", ⟨q5, intPctString (5/100), pyRound (q5 * (5/100)) 2⟩)] := by
  unfold calculate_final_score extractScores at hr
  simp only [weights, List.mapM_cons, List.mapM_nil] at hr
  cases h1 : getComponentScore cs "ratings" with
  | error e => rw [h1] at hr; simp [Except.map, Except.bind, bind, Functor.map] at hr
  | ok q1 =>
  cases h2 : getComponentScore cs "business_legitimacy" with
  | error e => rw [h1, h2] at hr; simp [Except.map, Except.bind, bind, Functor.map] at hr
  | ok q2 =>
  cases h3 : getComponentScore cs "review_sentiment" with
  | error e => rw [h1, h2, h3] at hr; simp [Except.map, Except.bind, bind, Functor.map] at hr
  | ok q3 =>
  cases h4 : getComponentScore cs "social_media" with
  | error e =>
    rw [h1, h2, h3, h4] at hr; simp [Except.map, Except.bind, bind, Functor.map] at hr
  | ok q4 =>
  cases h5 : getComponentScore cs "customer_support" with
  | error e =>
    rw [h1, h2, h3, h4, h5] at hr; simp [Except.map, Except.bind, bind, Functor.map] at hr
  | ok q5 =>
  rw [h1, h2, h3, h4, h5] at hr
  simp only [Except.map, Except.bind, bind, Functor.map, pure, Except.pure,
    List.map_cons, List.map_nil, List.sum_cons, List.sum_nil, Except.ok.injEq] at hr
  refine ⟨q1, q2, q3, q4, q5, rfl, rfl, rfl, rfl, rfl, ?_, ?_, ?_⟩ <;>
  · subst hr
    simp [scoreLookup, List.lookup, finalSum]

/-- Extraction success propagates to aggregation success, with the final
score equal to the weighted sum rounded to one decimal. -/
theorem calc_final_of_raw (cs : CompMap) (raw : ℚ) (h : rawFinalScore cs = .ok raw) :
    (calculate_final_score cs).map (fun r => r.final_score) = .ok (pyRound raw 1) := by
  unfold rawFinalScore at h
  unfold calculate_final_score
  cases he : extractScores cs with
  | error e => rw [he] at h; simp [Except.map] at h
  | ok scores =>
    rw [he] at h
    simp only [Except.map, Except.ok.injEq] at h ⊢
    rw [h]

/-- The final score of every successful aggregation lies in `[0, 10]`. -/
theorem calc_final_bounds (cs : CompMap) (r : TrustScoreResult)
    (hr : calculate_final_score cs = .ok r) :
    0 ≤ r.final_score ∧ r.final_score ≤ 10 ∧ ∃ n : ℤ, r.final_score = n / 10 := by
  obtain ⟨q1, q2, q3, q4, q5, h1, h2, h3, h4, h5, hf, _, _⟩ := calc_ok_destruct cs r hr
  obtain ⟨l1, u1⟩ := getComponentScore_bounds cs _ _ h1
  obtain ⟨l2, u2⟩ := getComponentScore_bounds cs _ _ h2
  obtain ⟨l3, u3⟩ := getComponentScore_bounds cs _ _ h3
  obtain ⟨l4, u4⟩ := getComponentScore_bounds cs _ _ h4
  obtain ⟨l5, u5⟩ := getComponentScore_bounds cs _ _ h5
  have hs0 : 0 ≤ finalSum q1 q2 q3 q4 q5 := by unfold finalSum; linarith
  have hs10 : finalSum q1 q2 q3 q4 q5 ≤ 10 := by unfold finalSum; linarith
  rw [hf]
  exact pyRound1_bounds _ hs0 hs10

section RatEval
attribute [local semireducible] Rat.mul Rat.inv Rat.add Rat.sub

/-! ### The claim theorems -/

/-- C1: with the configured weight table
`\x7bratings: 0.55, business_legitimacy: 0.10, review_sentiment: 0.20,
social_media: 0.10, customer_support: 0.05\x7d` and component scores
9, 8, 7, 6, 5 (each result carrying its dimension-named numeric score
field), the aggregator returns `final_score = 8.0` and the "Good" tier
interpretation string. -/
theorem C1_boundary_scenario :
    (calculate_final_score csBoundary).map
        (fun r => (r.final_score, r.score_interpretation))
      = .ok (8, "Good - Generally trustworthy") := by decide

/-- C2: both weight tables configured in the program (the effective one and
the shadowed first definition) map the five dimensions to weights in
`(0, 1]` and sum to 1 within the tolerance `1e-6` (in fact exactly). -/
theorem C2_weight_tables :
    |(weights.map Prod.snd).sum - 1| ≤ 1 / 1000000 ∧
    |(weightsShadowed.map Prod.snd).sum - 1| ≤ 1 / 1000000 ∧
    (weights.all fun p => decide (0 < p.2) && decide (p.2 ≤ 1)) = true ∧
    (weightsShadowed.all fun p => decide (0 < p.2) && decide (p.2 ≤ 1)) = true := by
  refine ⟨?_, ?_, by decide, by decide⟩ <;> · simp [weights, weightsShadowed]; norm_num

/-- C3: whenever the aggregator returns (the score-field extraction does
not raise), the final score satisfies `0 ≤ final_score ≤ 10` and is an
integer multiple of one tenth (exactly one decimal digit). -/
theorem C3_final_score_bounds (cs : CompMap) (q : ℚ)
    (h : (calculate_final_score cs).map (fun r => r.final_score) = .ok q) :
    0 ≤ q ∧ q ≤ 10 ∧ ∃ n : ℤ, q = n / 10 := by
  cases hr : calculate_final_score cs with
  | error e => rw [hr] at h; simp [Except.map] at h
  | ok r =>
    rw [hr] at h
    simp only [Except.map, Except.ok.injEq] at h
    subst h
    exact calc_final_bounds cs r hr

/-- C3 witness: the empty component map aggregates to `final_score = 5.0`,
which satisfies the bounds. -/
theorem C3_witness :
    0 ≤ (5 : ℚ) ∧ (5 : ℚ) ≤ 10 ∧ ∃ n : ℤ, (5 : ℚ) = n / 10 :=
  C3_final_score_bounds [] 5 (by decide)

/-- A dimension that is absent from the component map, or whose result
record carries neither the dimension-named nor the generic score field. -/
def missingDimension (cs : CompMap) (c : String) : Prop :=
  List.lookup c cs = none ∨
  ∃ d, List.lookup c cs = some (some d) ∧
       dictLookup d (c ++ "_score") = none ∧ dictLookup d "score" = none

/-- C4: a dimension of the weight table that is absent from the component
map (or whose record lacks both score fields) is scored exactly 5.0, its
breakdown entry records score 5.0 with contribution `round(5 * w, 2)`,
and the breakdown always lists every dimension of the weight table. -/
theorem C4_missing_dimension_defaults (cs : CompMap) (c : String) (w : ℚ)
    (hcw : (c, w) ∈ weights) (hmiss : missingDimension cs c)
    (r : TrustScoreResult) (hr : calculate_final_score cs = .ok r) :
    getComponentScore cs c = .ok 5 ∧
    List.lookup c r.component_breakdown
      = some ⟨5, intPctString w, pyRound (5 * w) 2⟩ ∧
    r.component_breakdown.map Prod.fst = weights.map Prod.fst := by
  have hgc : getComponentScore cs c = .ok 5 := by
    unfold getComponentScore
    rcases hmiss with hnone | ⟨d, hd, hds, hgs⟩
    · rw [hnone]
      rfl
    · rw [hd]
      simp only [Option.getD]
      by_cases he : hasKey d "error"
      · simp [he]
      · simp [he, hds, hgs]
  obtain ⟨q1, q2, q3, q4, q5, h1, h2, h3, h4, h5, _, _, hb⟩ := calc_ok_destruct cs r hr
  refine ⟨hgc, ?_, by rw [hb]; rfl⟩
  rw [hb]
  simp only [weights, List.mem_cons, List.not_mem_nil, or_false, Prod.mk.injEq] at hcw
  rcases hcw with ⟨rfl, rfl⟩ | ⟨rfl, rfl⟩ | ⟨rfl, rfl⟩ | ⟨rfl, rfl⟩ | ⟨rfl, rfl⟩
  · rw [hgc] at h1; injection h1 with h1'; subst h1'; simp [List.lookup]
  · rw [hgc] at h2; injection h2 with h2'; subst h2'; simp [List.lookup]
  · rw [hgc] at h3; injection h3 with h3'; subst h3'; simp [List.lookup]
  · rw [hgc] at h4; injection h4 with h4'; subst h4'; simp [List.lookup]
  · rw [hgc] at h5; injection h5 with h5'; subst h5'; simp [List.lookup]

/-- C5 counterexample: component scores 0, 0, 0, 0, 5 give the weighted
sum 0.25 — second decimal digit 5 — yet the final score is 0.2, not the
0.3 that rounding away from zero would give (Python's `round` is
half-to-even; 0.25 is exactly representable in binary, so the actual
program hits the same tie). -/
theorem C5_counterexample :
    rawFinalScore csTie = .ok (1 / 4) ∧
    (calculate_final_score csTie).map (fun r => r.final_score) = .ok (1 / 5) ∧
    (1 / 5 : ℚ) ≠ 3 / 10 :=
  ⟨by decide, by decide, by norm_num⟩

/-- C5 amended: the aggregator rounds the weighted sum to one decimal with
round-half-to-even semantics: at an exact tie (weighted sum equal to
`(n + 1/2) / 10`), the final score is `n/10` for even `n` and `(n+1)/10`
for odd `n`. -/
theorem C5_half_even_rounding (cs : CompMap) (raw : ℚ) (n : ℤ)
    (hraw : rawFinalScore cs = .ok raw) (htie : 10 * raw = n + 1 / 2) :
    (calculate_final_score cs).map (fun r => r.final_score)
      = .ok ((if n % 2 = 0 then (n : ℚ) else (n : ℚ) + 1) / 10) := by
  rw [calc_final_of_raw cs raw hraw]
  congr 1
  unfold pyRound roundHalfEven
  have hx : raw * 10 ^ 1 = (n : ℚ) + 1 / 2 := by linarith
  rw [hx]
  have hfl : Rat.floor ((n : ℚ) + 1 / 2) = n := by
    rw [← floorBridge, add_comm, Int.floor_add_int]
    norm_num
  rw [hfl]
  have harg : (n : ℚ) + 1 / 2 - (n : ℤ) = 1 / 2 := by ring
  rw [harg, if_neg (lt_irrefl _), if_neg (lt_irrefl _)]
  by_cases h : n % 2 = 0 <;> simp [h]

/-- C5 amended witness: at the tie input `csTie` (weighted sum 0.25,
`n = 2` even), the final score is `2/10`. -/
theorem C5_half_even_witness :
    (calculate_final_score csTie).map (fun r => r.final_score)
      = .ok ((if (2 : ℤ) % 2 = 0 then ((2 : ℤ) : ℚ) else ((2 : ℤ) : ℚ) + 1) / 10) :=
  C5_half_even_rounding csTie (1 / 4) 2 (by decide) (by norm_num)

/-- C6 counterexample: for the spec's own example text `\x7b"a":1,"b":2`
(a span with *no* closing brace anywhere), none of the four extraction
regexes can match — each requires a literal `\x7d` — so the repair pass
never runs and the analyzer falls back; the result is the fallback dict,
not the record `\x7b"a": 1, "b": 2\x7d`. -/
theorem C6_counterexample :
    extract_parsed_result "\x7b\"a\":1,\"b\":2".data = none ∧
    call_component_analyzer (some fun _ => "\x7b\"a\":1,\"b\":2") sentimentPrompt []
      = fallback_scoring ∧
    hasKey fallback_scoring "a" = false :=
  ⟨rfl, rfl, rfl⟩

/-- C6 amended: the repair pass does append missing closing braces and
reparse, for spans that still contain at least one closing brace (so some
pattern can delimit a candidate): `\x7b"a": \x7b\x7d` fails strict parsing,
is repaired to `\x7b"a": \x7b\x7d\x7d`, and parses to the record mapping
"a" to the empty object, which the analyzer returns. -/
theorem C6_repair_needs_closing_brace :
    json_loads "\x7b\"a\": \x7b\x7d".data = none ∧
    json_loads (fix_json "\x7b\"a\": \x7b\x7d".data) = some (.obj [("a", .obj [])]) ∧
    extract_parsed_result "\x7b\"a\": \x7b\x7d".data = some (.obj [("a", .obj [])]) ∧
    call_component_analyzer (some fun _ => "\x7b\"a\": \x7b\x7d") sentimentPrompt []
      = [("a", .obj [])] :=
  ⟨rfl, rfl, rfl, rfl⟩

/-- C7 counterexample: wrapping the valid record `recordB` (whose string
value embeds `\x7d` and fence markers) in a labeled fence does *not*
round-trip: the cascade extracts the inner span and returns the record
mapping "c" to 1, which is not `recordB` (its keys are "a", "b").  The
valid empty record also fails: a parsed `\x7b\x7d` is Python-falsy, so the
analyzer falls back. -/
theorem C7_counterexample :
    call_component_analyzer (some fun _ => fencedJson (dumps (.obj recordB))) ratingsPrompt []
      = [("c", .num 1)] ∧
    recordB.map Prod.fst = ["a", "b"] ∧
    hasKey recordB "c" = false ∧
    call_component_analyzer (some fun _ => fencedJson (dumps (.obj []))) ratingsPrompt []
      = fallback_scoring :=
  ⟨rfl, rfl, rfl, rfl⟩

/-- C7 amended: the round trip holds for a non-empty record whose
serialisation contains no fence marker: the labeled fenced serialisation of
`recordA` (with a nested object) extracts to exactly `recordA`, without
falling back. -/
theorem C7_roundtrip :
    dumps (.obj recordA) = "\x7b\"a\": 1, \"b\": \x7b\"c\": 2\x7d\x7d" ∧
    call_component_analyzer (some fun _ => fencedJson (dumps (.obj recordA))) ratingsPrompt []
      = recordA ∧
    extract_parsed_result (pyStrip (fencedJson (dumps (.obj recordA))).data)
      = some (.obj recordA) :=
  ⟨rfl, rfl, rfl⟩

/-- C8: with one usable review text and the reasoning service unavailable,
`_call_component_analyzer` returns the fallback dict (which has a generic
`score` field but no `review_sentiment_score`), and
`analyze_review_sentiment` therefore falls off the end and returns Python
`None` instead of a ComponentScore — its deterministic-fallback return is
commented out in the source. -/
theorem C8_sentiment_returns_none :
    analyze_review_sentiment none googleReviewsOne [] = .ok none ∧
    call_component_analyzer none sentimentPrompt
        [("total_reviews", .num 1), ("reviews_analyzed", .num 1)] = fallback_scoring ∧
    hasKey fallback_scoring "review_sentiment_score" = false :=
  ⟨rfl, rfl, rfl⟩

/-- C9 counterexample: in the all-empty-responses scenario on a state with
no review texts, the produced review-sentiment component is the untagged
neutral default — it carries no `method` field at all, so not every
produced component is tagged `method = "fallback"`. -/
theorem C9_counterexample :
    (component_results_map svcEmptyResponse emptyState).map
        (fun cs => List.lookup "review_sentiment" cs)
      = .ok (some (some no_reviews_sentiment)) ∧
    hasKey no_reviews_sentiment "method" = false ∧
    (calculate_trust_score svcEmptyResponse emptyState).map (fun r => r.final_score)
      = .ok (29 / 5) :=
  ⟨rfl, rfl, by decide⟩

theorem cca_empty_response (p : String) (d : Dict) :
    call_component_analyzer svcEmptyResponse p d = fallback_scoring := rfl

theorem analyze_ratings_empty_response (g : List Json) (d : Dict)
    (h : analyze_ratings svcEmptyResponse g = .ok d) : d = fallback_scoring := by
  unfold analyze_ratings at h
  cases hp : prepare_ratings_data g with
  | error e => rw [hp] at h; simp [Except.map] at h
  | ok x =>
    rw [hp] at h
    simp only [Except.map, Except.ok.injEq] at h
    rw [cca_empty_response] at h
    exact h.symm

/-- C9 amended: when the reasoning service answers every prompt with an
empty response, the four analyzer-backed dimensions (ratings, business
legitimacy, social media, customer support) all produce the fallback dict,
which carries `method = "fallback"`; the review-sentiment dimension does
not (see the counterexample).  Regardless of the collected data, the
stored final score satisfies `0 ≤ final_score ≤ 10` (5.8 when scoring
succeeds, 0.0 via the error path when the sentiment result is `None`). -/
theorem C9_empty_responses (st : AnalysisState) :
    (∀ cs, component_results_map svcEmptyResponse st = .ok cs →
       List.lookup "ratings" cs = some (some fallback_scoring) ∧
       List.lookup "business_legitimacy" cs = some (some fallback_scoring) ∧
       List.lookup "social_media" cs = some (some fallback_scoring) ∧
       List.lookup "customer_support" cs = some (some fallback_scoring) ∧
       dictLookup fallback_scoring "method" = some (.str "fallback")) ∧
    (∃ q : ℚ, stateFinalScore (trust_scoring_node svcEmptyResponse st) = .num q ∧
       0 ≤ q ∧ q ≤ 10) := by
  constructor
  · intro cs hcs
    unfold component_results_map at hcs
    cases hp : analyze_ratings svcEmptyResponse st.google_reviews with
    | error e => rw [hp] at hcs; simp [Except.bind, bind] at hcs
    | ok rat =>
      have hrat := analyze_ratings_empty_response _ _ hp
      subst hrat
      cases hs : analyze_review_sentiment svcEmptyResponse st.google_reviews st.reddit_reviews with
      | error e => rw [hp, hs] at hcs; simp [Except.bind, bind] at hcs
      | ok sent =>
        rw [hp, hs] at hcs
        simp only [Except.bind, bind, pure, Except.pure, Except.ok.injEq] at hcs
        subst hcs
        refine ⟨?_, ?_, ?_, ?_, rfl⟩ <;>
          simp [List.lookup, analyze_business_legitimacy, analyze_social_media,
                analyze_customer_support, prepare_support_data, cca_empty_response]
  · cases hts : calculate_trust_score svcEmptyResponse st with
    | error e =>
      refine ⟨0, ?_, le_refl 0, by norm_num⟩
      unfold trust_scoring_node stateFinalScore
      rw [hts]
      rfl
    | ok r =>
      have hts' := hts
      unfold calculate_trust_score at hts'
      cases hcm : component_results_map svcEmptyResponse st with
      | error e => rw [hcm] at hts'; simp [Except.bind, bind] at hts'
      | ok cs' =>
        rw [hcm] at hts'
        simp only [Except.bind, bind] at hts'
        obtain ⟨h0, h10, _⟩ := calc_final_bounds cs' r hts'
        refine ⟨r.final_score, ?_, h0, h10⟩
        unfold trust_scoring_node stateFinalScore
        rw [hts]
        simp [trustScoreDict, dictLookup, List.lookup]

/-- C9 amended witness: on the empty collected-data state the stored final
score is a rational in `[0, 10]`. -/
theorem C9_witness :
    ∃ q : ℚ, stateFinalScore (trust_scoring_node svcEmptyResponse emptyState) = .num q ∧
      0 ≤ q ∧ q ≤ 10 :=
  (C9_empty_responses emptyState).2

/-- C10 counterexample: running with an empty brand name (reasoning service
unavailable), every per-source collection status in the report is the
string "pending" — set by validation, never unset — and the report's
`overall_score` is 5.8, not absent and not 0.0: scoring still runs on the
empty collected data and uses fallback/default component scores. -/
theorem C10_counterexample :
    dictLookup (c10Run.final_report.getD []) "data_collection_status"
      = some (.obj [("google_reviews", .str "pending"), ("reddit_reviews", .str "pending"),
                    ("website_analysis", .str "pending")]) ∧
    dictLookup (c10Run.final_report.getD []) "overall_score" = some (.num (29 / 5)) ∧
    (29 / 5 : ℚ) ≠ 0 :=
  ⟨rfl, rfl, by norm_num⟩

/-- C10 amended: the missing-brand-name run records the validation error in
the state's error list, but the generated report has no error entry (its
keys are exactly the eleven summary keys); every collection status is set
to "pending" (collection is skipped); and the report's final score is the
fallback-derived 5.8, with the "Average" recommendation. -/
theorem C10_empty_brand_run :
    c10Run.errors = ["Brand name is required"] ∧
    hasKey (c10Run.final_report.getD []) "errors" = false ∧
    (c10Run.final_report.getD []).map Prod.fst
      = ["brand_name", "overall_score", "recommendation", "data_sources_analyzed",
         "component_scores", "detailed_component_analysis", "key_strengths",
         "areas_of_concern", "data_collection_status", "trust_score_details",
         "trust_score_summary"] ∧
    c10Run.collection_status
      = [("google_reviews", "pending"), ("reddit_reviews", "pending"),
         ("website_analysis", "pending")] ∧
    dictLookup (c10Run.final_report.getD []) "recommendation"
      = some (.str "Average - Proceed with research") :=
  ⟨rfl, rfl, rfl, rfl, rfl⟩

/-- The aggregator's output on the empty component map. -/
def rEmpty : TrustScoreResult :=
  ((calculate_final_score []).toOption).getD ⟨0, [], "", []⟩

/-- C4 witness: the empty component map with the `social_media` dimension:
score 5.0, contribution `round(0.5, 2) = 0.5`, full breakdown. -/
theorem C4_witness :
    getComponentScore [] "social_media" = .ok 5 ∧
    List.lookup "social_media" rEmpty.component_breakdown
      = some ⟨5, intPctString (10 / 100), pyRound (5 * (10 / 100)) 2⟩ ∧
    rEmpty.component_breakdown.map Prod.fst = weights.map Prod.fst :=
  C4_missing_dimension_defaults [] "social_media" (10 / 100) (by decide)
    (Or.inl rfl) rEmpty rfl

end RatEval
